import Mathlib

/-!
Verification development for the SPDY connection multiplexer.

The repository holds two drafts of the connection core: a client-side
session type with frame handlers (here `clientConnection`) and a
server-side session type whose ingress loop implements only the
SYN_STREAM case (here `connection`). The definitions below are a shallow
embedding of those two files: maps are modelled by their key lists (the
values carry no data the handlers inspect beyond effects), channel sends
and stream-object method calls become explicit `Output` events, and
`runtime.Goexit` becomes a `terminated` flag on the step result.
Machine integers are `Nat` with explicit reduction modulo `2 ^ 32`
where 32-bit overflow matters.
-/

namespace Spdy

/-- Modelled from the spec: wire-format constant, the largest legal
stream ID, `2 ^ 31 - 1`. The constant is referenced by the source but
its defining file is not part of the sources given. -/
def MAX_STREAM_ID : Nat := 2 ^ 31 - 1

/-- Modelled from the spec: the largest legal WINDOW_UPDATE delta,
`2 ^ 31 - 1`. -/
def MAX_DELTA_WINDOW_SIZE : Nat := 2 ^ 31 - 1

/-- Modelled from the spec: the highest SPDY version this library
supports (versions 2 and 3 are supported, so 3). -/
def SPDY_VERSION : Nat := 3

/-- Modelled from the spec and the source comment in `readFrames`:
the benign-error budget, default 10. -/
def MaxBenignErrors : Nat := 10

/-- Modelled from the spec: the FIN flag bit. -/
def FLAG_FIN : Nat := 1

/-- Modelled from the spec: RST_STREAM status code PROTOCOL_ERROR. -/
def RST_STREAM_PROTOCOL_ERROR : Nat := 1

/-- Modelled from the spec: RST_STREAM status code INVALID_STREAM. -/
def RST_STREAM_INVALID_STREAM : Nat := 2

/-- Modelled from the spec: RST_STREAM status code REFUSED_STREAM. -/
def RST_STREAM_REFUSED_STREAM : Nat := 3

/-- Modelled from the spec: RST_STREAM status code UNSUPPORTED_VERSION. -/
def RST_STREAM_UNSUPPORTED_VERSION : Nat := 4

/-- Modelled from the spec: RST_STREAM status code CANCEL. -/
def RST_STREAM_CANCEL : Nat := 5

/-- Modelled from the spec: RST_STREAM status code INTERNAL_ERROR. -/
def RST_STREAM_INTERNAL_ERROR : Nat := 6

/-- Modelled from the spec: RST_STREAM status code FLOW_CONTROL_ERROR. -/
def RST_STREAM_FLOW_CONTROL_ERROR : Nat := 7

/-- Modelled from the spec: RST_STREAM status code STREAM_IN_USE. -/
def RST_STREAM_STREAM_IN_USE : Nat := 8

/-- Modelled from the spec: RST_STREAM status code STREAM_ALREADY_CLOSED. -/
def RST_STREAM_STREAM_ALREADY_CLOSED : Nat := 9

/-- Modelled from the spec: RST_STREAM status code INVALID_CREDENTIALS. -/
def RST_STREAM_INVALID_CREDENTIALS : Nat := 10

/-- Modelled from the spec: the setting ID `SETTINGS_INITIAL_WINDOW_SIZE`
(numeric value 7 in the SPDY drafts; only its identity matters here). -/
def SETTINGS_INITIAL_WINDOW_SIZE : Nat := 7

/-- Modelled from the spec (section 4.6 of the design): an RST_STREAM
status code is connection-fatal when it is PROTOCOL_ERROR or
UNSUPPORTED_VERSION. The function `StatusCodeIsFatal` is referenced by
the client ingress loop but not defined in the sources given. -/
def StatusCodeIsFatal (code : Nat) : Bool :=
  code == RST_STREAM_PROTOCOL_ERROR || code == RST_STREAM_UNSUPPORTED_VERSION

/-- Addition of two unsigned 32-bit quantities, as Go `uint32` addition. -/
def uadd32 (a b : Nat) : Nat := (a + b) % 2 ^ 32

/-- Reduction of a (possibly negative) integer constant into `uint32`,
as Go two-complement wrapping. -/
def wrap32 (n : Int) : Nat := (n % (2 ^ 32 : Int)).toNat

/-- SYN_STREAM frame: the fields the connection core reads. -/
structure SynStreamFrame where
  version : Nat
  streamID : Nat
deriving DecidableEq, Repr

/-- SYN_REPLY frame. -/
structure SynReplyFrame where
  version : Nat
  streamID : Nat
deriving DecidableEq, Repr

/-- RST_STREAM frame. -/
structure RstStreamFrame where
  version : Nat
  streamID : Nat
  StatusCode : Nat
deriving DecidableEq, Repr

/-- SETTINGS frame: a list of (ID, Value) pairs. -/
structure SettingsFrame where
  version : Nat
  Settings : List (Nat × Nat)
deriving DecidableEq, Repr

/-- PING frame. -/
structure PingFrame where
  version : Nat
  PingID : Nat
deriving DecidableEq, Repr

/-- GOAWAY frame. -/
structure GoawayFrame where
  version : Nat
  LastGoodStreamID : Nat
deriving DecidableEq, Repr

/-- HEADERS frame. -/
structure HeadersFrame where
  version : Nat
  streamID : Nat
  Flags : Nat
deriving DecidableEq, Repr

/-- WINDOW_UPDATE frame. -/
structure WindowUpdateFrame where
  version : Nat
  streamID : Nat
  DeltaWindowSize : Nat
deriving DecidableEq, Repr

/-- CREDENTIAL frame. -/
structure CredentialFrame where
  version : Nat
deriving DecidableEq, Repr

/-- DATA frame: carries no version on the wire. -/
structure DataFrame where
  streamID : Nat
  Flags : Nat
deriving DecidableEq, Repr

/-- The nine SPDY frame kinds the ingress loops dispatch on. -/
inductive Frame where
  | synStream : SynStreamFrame → Frame
  | synReply : SynReplyFrame → Frame
  | rstStream : RstStreamFrame → Frame
  | settings : SettingsFrame → Frame
  | ping : PingFrame → Frame
  | goawayFrame : GoawayFrame → Frame
  | headers : HeadersFrame → Frame
  | windowUpdate : WindowUpdateFrame → Frame
  | credential : CredentialFrame → Frame
  | data : DataFrame → Frame
deriving DecidableEq, Repr

/-- Version accessor, as the Go `Frame.Version()` method; DATA frames
have no version. -/
def Frame.frameVersion : Frame → Option Nat
  | Frame.synStream f => some f.version
  | Frame.synReply f => some f.version
  | Frame.rstStream f => some f.version
  | Frame.settings f => some f.version
  | Frame.ping f => some f.version
  | Frame.goawayFrame f => some f.version
  | Frame.headers f => some f.version
  | Frame.windowUpdate f => some f.version
  | Frame.credential f => some f.version
  | Frame.data _ => none

/-- Stream-ID accessor, as the Go `Frame.StreamID()` method; frames
with no stream reference report 0. -/
def Frame.frameStreamID : Frame → Nat
  | Frame.synStream f => f.streamID
  | Frame.synReply f => f.streamID
  | Frame.rstStream f => f.streamID
  | Frame.settings _ => 0
  | Frame.ping _ => 0
  | Frame.goawayFrame _ => 0
  | Frame.headers f => f.streamID
  | Frame.windowUpdate f => f.streamID
  | Frame.credential _ => 0
  | Frame.data f => f.streamID

/-- Observable side effects of one handler invocation: channel sends,
channel closes, and method calls on stream objects, in program order. -/
inductive Output where
  | frame : Frame → Output
  | streamInput : Nat → Frame → Output
  | pingSignal : Nat → Bool → Output
  | pingChanClose : Nat → Output
  | inputChanClose : Nat → Output
  | streamStop : Nat → Output
  | streamStateClose : Nat → Output
  | streamCloseThere : Nat → Output
  | streamCancel : Nat → Output
  | streamLaunch : Nat → Output
  | doneAdd : Output
deriving DecidableEq, Repr

/-- The client-side SPDY session state: the fields of the Go struct
that the embedded handlers read or write. Maps are modelled by their
key lists (`streams`, `streamInputs`, `pings`) or association lists
(`receivedSettings`). -/
structure clientConnection where
  streams : List Nat
  streamInputs : List Nat
  pings : List Nat
  pingID : Nat
  receivedSettings : List (Nat × Nat)
  nextServerStreamID : Nat
  nextClientStreamID : Nat
  initialWindowSize : Nat
  goaway : Bool
  version : Nat
  numBenignErrors : Nat
deriving DecidableEq, Repr

/-- Result of one handler or loop-iteration step: the updated session
state, the side effects in order, and whether the ingress goroutine
terminated (`return` from the loop or `runtime.Goexit`). -/
structure StepResult where
  conn : clientConnection
  out : List Output
  terminated : Bool
deriving DecidableEq, Repr

namespace clientConnection

/-- Embeds `clientConnection.cleanup`: close every stream-input channel
and stop every stream, then null both tables. -/
def cleanup (conn : clientConnection) : clientConnection × List Output :=
  ({ conn with streams := [], streamInputs := [] },
   conn.streamInputs.flatMap fun sid => [Output.inputChanClose sid, Output.streamStop sid])

/-- Embeds `clientConnection.PROTOCOL_ERROR`: enqueue an RST_STREAM
with status PROTOCOL_ERROR for the given stream, run `cleanup`, and
end the goroutine via `runtime.Goexit`. -/
def PROTOCOL_ERROR (conn : clientConnection) (streamID : Nat) : StepResult :=
  let reply : RstStreamFrame :=
    { version := conn.version, streamID := streamID,
      StatusCode := RST_STREAM_PROTOCOL_ERROR }
  let cleaned := conn.cleanup
  { conn := cleaned.1,
    out := Output.frame (Frame.rstStream reply) :: cleaned.2,
    terminated := true }

/-- Embeds `clientConnection.closeStream`: stop the stream, close its
state, close its input channel, and delete it from `streams` (the
source does not delete the `streamInputs` entry). -/
def closeStream (conn : clientConnection) (streamID : Nat) :
    clientConnection × List Output :=
  if streamID = 0 then (conn, [])
  else
    ({ conn with streams := conn.streams.erase streamID },
     [Output.streamStop streamID, Output.streamStateClose streamID,
      Output.inputChanClose streamID])

/-- Embeds `clientConnection.Ping`: enqueue a PING with the next local
ping ID, register a reply channel under that ID, and advance the ID
by 2 (uint32). -/
def Ping (conn : clientConnection) : clientConnection × List Output :=
  let ping : PingFrame := { version := conn.version, PingID := conn.pingID }
  ({ conn with pings := conn.pings ++ [conn.pingID],
               pingID := uadd32 conn.pingID 2 },
   [Output.frame (Frame.ping ping)])

/-- Embeds `clientConnection.validFrameVersion`: DATA frames are always
valid; any other frame must carry the connection version. -/
def validFrameVersion (conn : clientConnection) (frame : Frame) : Bool :=
  match frame with
  | Frame.data _ => true
  | f => f.frameVersion == some conn.version

/-- Embeds `clientConnection.handleSynStream`. The stream-creation
section of the source is an explicit TODO stub: after the checks pass,
only `conn.done.Add(1)` runs. -/
def handleSynStream (conn : clientConnection) (frame : SynStreamFrame) :
    StepResult :=
  if conn.goaway then { conn := conn, out := [], terminated := false }
  else
    let sid := frame.streamID
    if sid % 2 ≠ 0 then
      { conn := { conn with numBenignErrors := conn.numBenignErrors + 1 },
        out := [], terminated := false }
    else
      let nsid := uadd32 conn.nextServerStreamID 2
      if sid ≠ nsid then
        { conn := { conn with numBenignErrors := conn.numBenignErrors + 1 },
          out := [], terminated := false }
      else if sid > MAX_STREAM_ID then conn.PROTOCOL_ERROR sid
      else { conn := conn, out := [Output.doneAdd], terminated := false }

/-- Embeds `clientConnection.handleRstStream`, dispatching on the
status code exactly as the source switch does. -/
def handleRstStream (conn : clientConnection) (frame : RstStreamFrame) :
    StepResult :=
  let sid := frame.streamID
  let benign : StepResult :=
    { conn := { conn with numBenignErrors := conn.numBenignErrors + 1 },
      out := [], terminated := false }
  if frame.StatusCode = RST_STREAM_INVALID_STREAM then benign
  else if frame.StatusCode = RST_STREAM_REFUSED_STREAM then
    let closed := conn.closeStream sid
    { conn := closed.1, out := closed.2, terminated := false }
  else if frame.StatusCode = RST_STREAM_CANCEL then
    if sid % 2 = 0 then benign
    else
      let closed := conn.closeStream sid
      { conn := closed.1, out := closed.2, terminated := false }
  else if frame.StatusCode = RST_STREAM_FLOW_CONTROL_ERROR then benign
  else if frame.StatusCode = RST_STREAM_STREAM_IN_USE then benign
  else if frame.StatusCode = RST_STREAM_STREAM_ALREADY_CLOSED then benign
  else if frame.StatusCode = RST_STREAM_INVALID_CREDENTIALS then benign
  else conn.PROTOCOL_ERROR sid

/-- Embeds `clientConnection.handleDataFrame`: parity check, then the
expected-ID check, then the send to `streamInputs[sid]` and the FIN
flag handling. -/
def handleDataFrame (conn : clientConnection) (frame : DataFrame) :
    StepResult :=
  let sid := frame.streamID
  if sid % 2 = 0 then
    { conn := { conn with numBenignErrors := conn.numBenignErrors + 1 },
      out := [], terminated := false }
  else
    let nsid := uadd32 conn.nextClientStreamID 2
    if sid ≠ nsid ∧ sid ≠ 1 ∧ conn.nextClientStreamID ≠ 0 then
      { conn := { conn with numBenignErrors := conn.numBenignErrors + 1 },
        out := [], terminated := false }
    else
      { conn := conn,
        out := Output.streamInput sid (Frame.data frame) ::
          (if frame.Flags &&& FLAG_FIN ≠ 0 then
            [Output.streamCloseThere sid]
          else []),
        terminated := false }

/-- Embeds `clientConnection.handleHeadersFrame`: same shape as the
DATA handler. -/
def handleHeadersFrame (conn : clientConnection) (frame : HeadersFrame) :
    StepResult :=
  let sid := frame.streamID
  if sid % 2 = 0 then
    { conn := { conn with numBenignErrors := conn.numBenignErrors + 1 },
      out := [], terminated := false }
  else
    let nsid := uadd32 conn.nextClientStreamID 2
    if sid ≠ nsid ∧ sid ≠ 1 ∧ conn.nextClientStreamID ≠ 0 then
      { conn := { conn with numBenignErrors := conn.numBenignErrors + 1 },
        out := [], terminated := false }
    else
      { conn := conn,
        out := Output.streamInput sid (Frame.headers frame) ::
          (if frame.Flags &&& FLAG_FIN ≠ 0 then
            [Output.streamCloseThere sid]
          else []),
        terminated := false }

/-- Embeds `clientConnection.handleWindowUpdateFrame`: parity check,
expected-ID check, delta-window-size bounds check (out of bounds is a
fatal PROTOCOL_ERROR on that stream, which never returns), then the
send to `streamInputs[sid]`. -/
def handleWindowUpdateFrame (conn : clientConnection)
    (frame : WindowUpdateFrame) : StepResult :=
  let sid := frame.streamID
  if sid % 2 = 0 then
    { conn := { conn with numBenignErrors := conn.numBenignErrors + 1 },
      out := [], terminated := false }
  else
    let nsid := uadd32 conn.nextClientStreamID 2
    if sid ≠ nsid ∧ sid ≠ 1 ∧ conn.nextClientStreamID ≠ 0 then
      { conn := { conn with numBenignErrors := conn.numBenignErrors + 1 },
        out := [], terminated := false }
    else
      let delta := frame.DeltaWindowSize
      if delta > MAX_DELTA_WINDOW_SIZE ∨ delta < 1 then
        conn.PROTOCOL_ERROR sid
      else
        { conn := conn,
          out := [Output.streamInput sid (Frame.windowUpdate frame)],
          terminated := false }

/-- Last-write-wins insertion into the received-settings table. -/
def settingsStore (table : List (Nat × Nat)) (s : Nat × Nat) :
    List (Nat × Nat) :=
  (table.filter fun p => p.1 ≠ s.1) ++ [s]

/-- One pass of the SETTINGS loop body of `readFrames`: store the
setting and, for `SETTINGS_INITIAL_WINDOW_SIZE` on version 3, adopt
the value as the initial window size. -/
def applySetting (conn : clientConnection) (s : Nat × Nat) :
    clientConnection :=
  let stored := { conn with receivedSettings := settingsStore conn.receivedSettings s }
  if s.1 = SETTINGS_INITIAL_WINDOW_SIZE ∧ stored.version > 2 then
    { stored with initialWindowSize := s.2 }
  else stored

/-- Embeds one iteration of `clientConnection.readFrames`: the
benign-error budget check, then (if a frame is available; `none` is
EOF, a clean close) the version check and the dispatch on frame kind.
SYN_STREAM, SYN_REPLY and CREDENTIAL cases are log-only stubs in the
source. -/
def readFramesIter (conn : clientConnection) (input : Option Frame) :
    StepResult :=
  if conn.numBenignErrors > MaxBenignErrors then conn.PROTOCOL_ERROR 0
  else
    match input with
    | none => { conn := conn, out := [], terminated := true }
    | some frame =>
      if ¬ conn.validFrameVersion frame then
        let reply : RstStreamFrame :=
          { version := SPDY_VERSION, streamID := frame.frameStreamID,
            StatusCode := RST_STREAM_UNSUPPORTED_VERSION }
        { conn := conn, out := [Output.frame (Frame.rstStream reply)],
          terminated := false }
      else
        match frame with
        | Frame.synStream _ => { conn := conn, out := [], terminated := false }
        | Frame.synReply _ => { conn := conn, out := [], terminated := false }
        | Frame.rstStream f =>
          if StatusCodeIsFatal f.StatusCode then
            { conn := conn, out := [], terminated := true }
          else conn.handleRstStream f
        | Frame.settings f =>
          { conn := f.Settings.foldl applySetting conn, out := [],
            terminated := false }
        | Frame.ping f =>
          if f.PingID % 2 ≠ 0 then
            if ¬ conn.pings.contains f.PingID then
              { conn := { conn with numBenignErrors := conn.numBenignErrors + 1 },
                out := [], terminated := false }
            else
              { conn := { conn with pings := conn.pings.erase f.PingID },
                out := [Output.pingSignal f.PingID true,
                        Output.pingChanClose f.PingID],
                terminated := false }
          else
            { conn := conn, out := [Output.frame (Frame.ping f)],
              terminated := false }
        | Frame.goawayFrame f =>
          { conn := { conn with goaway := true },
            out := (conn.streams.filter fun sid =>
                     sid % 2 ≠ 0 ∧ sid > f.LastGoodStreamID).map
                   Output.streamCancel,
            terminated := false }
        | Frame.headers f => conn.handleHeadersFrame f
        | Frame.windowUpdate f => conn.handleWindowUpdateFrame f
        | Frame.credential _ => { conn := conn, out := [], terminated := false }
        | Frame.data f => conn.handleDataFrame f

end clientConnection

/-- The server-side SPDY session state (`connection` in the source):
the fields its drafted ingress loop reads or writes. The server struct
has a `streams` table but no stream-inputs table. -/
structure connection where
  streams : List Nat
  nextServerStreamID : Nat
  nextClientStreamID : Nat
  goaway : Bool
  version : Nat
deriving DecidableEq, Repr

/-- Result of one server ingress iteration: updated state, side
effects in order, and whether the loop terminated. -/
structure ServerStep where
  conn : connection
  out : List Output
  terminated : Bool
deriving DecidableEq, Repr

namespace connection

/-- Key insertion for the Go map assignment `conn.streams[id] = ...`. -/
def insertKey (l : List Nat) (k : Nat) : List Nat :=
  if l.contains k then l else l ++ [k]

/-- Embeds the SYN_STREAM case of the server `connection.readFrames`
switch: goaway check, version check (a mismatched version is rejected
only when it also exceeds `SPDY_VERSION`; otherwise the code falls
through), parity check, expected-ID check, MAX_STREAM_ID check, and
finally stream creation and actor launch. The source never updates
`nextClientStreamID` here. -/
def synStreamCase (conn : connection) (frame : SynStreamFrame) : ServerStep :=
  if conn.goaway then { conn := conn, out := [], terminated := false }
  else if frame.version ≠ conn.version ∧ frame.version > SPDY_VERSION then
    { conn := conn,
      out := [Output.frame (Frame.rstStream
        { version := SPDY_VERSION, streamID := frame.streamID,
          StatusCode := RST_STREAM_UNSUPPORTED_VERSION })],
      terminated := false }
  else if frame.streamID % 2 = 0 then
    { conn := conn,
      out := [Output.frame (Frame.rstStream
        { version := SPDY_VERSION, streamID := frame.streamID,
          StatusCode := RST_STREAM_PROTOCOL_ERROR })],
      terminated := false }
  else if frame.streamID ≠ uadd32 conn.nextClientStreamID 2 then
    { conn := conn,
      out := [Output.frame (Frame.rstStream
        { version := SPDY_VERSION, streamID := frame.streamID,
          StatusCode := RST_STREAM_PROTOCOL_ERROR })],
      terminated := false }
  else if frame.streamID > MAX_STREAM_ID then
    { conn := conn,
      out := [Output.frame (Frame.rstStream
        { version := SPDY_VERSION, streamID := frame.streamID,
          StatusCode := RST_STREAM_PROTOCOL_ERROR })],
      terminated := false }
  else
    { conn := { conn with streams := insertKey conn.streams frame.streamID },
      out := [Output.streamLaunch frame.streamID],
      terminated := false }

/-- Embeds one iteration of the server `connection.readFrames` switch.
Every case other than SYN_STREAM is an empty stub in the source. -/
def readFramesIter (conn : connection) (frame : Frame) : ServerStep :=
  match frame with
  | Frame.synStream f => conn.synStreamCase f
  | _ => { conn := conn, out := [], terminated := false }

end connection

/-- Embeds `newConn`: a fresh server connection. The Go source assigns
`nextClientStreamID = 1 - 2` into a `uint32` field, which wraps to
`2 ^ 32 - 1`; the version field is set afterwards by the accept
functions. -/
def newConn : connection :=
  { streams := []
    nextServerStreamID := 0
    nextClientStreamID := wrap32 (1 - 2)
    goaway := false
    version := 0 }

/-- Embeds `acceptSPDYVersion2`: a fresh server connection at SPDY
version 2. -/
def acceptSPDYVersion2Conn : connection := { newConn with version := 2 }

/-- Embeds `acceptSPDYVersion3`: a fresh server connection at SPDY
version 3. -/
def acceptSPDYVersion3Conn : connection := { newConn with version := 3 }

/-- A small concrete client session used by the concrete theorems:
fresh tables, version 3, as `newClientConn` leaves them (the uint32
zero value for `nextClientStreamID` and `nextServerStreamID`). -/
def cBase : clientConnection :=
  { streams := []
    streamInputs := []
    pings := []
    pingID := 1
    receivedSettings := []
    nextServerStreamID := 0
    nextClientStreamID := 0
    initialWindowSize := 65536
    goaway := false
    version := 3
    numBenignErrors := 0 }

/-- C1: whenever `numBenignErrors` exceeds `MaxBenignErrors`, the next
iteration of the client ingress loop escalates PROTOCOL_ERROR on
stream 0: it enqueues an RST_STREAM frame with stream ID 0 and status
PROTOCOL_ERROR as its first output, closes every stream input channel
and stops every stream (cleanup), nulls both tables, and terminates
the ingress goroutine, whatever frame (or EOF) arrives next. -/
theorem C1_benign_budget_escalation (conn : clientConnection)
    (input : Option Frame) (h : conn.numBenignErrors > MaxBenignErrors) :
    (conn.readFramesIter input).terminated = true ∧
    (conn.readFramesIter input).out.head? = some (Output.frame (Frame.rstStream
      { version := conn.version, streamID := 0,
        StatusCode := RST_STREAM_PROTOCOL_ERROR })) ∧
    (∀ sid ∈ conn.streamInputs,
      Output.inputChanClose sid ∈ (conn.readFramesIter input).out ∧
      Output.streamStop sid ∈ (conn.readFramesIter input).out) ∧
    (conn.readFramesIter input).conn.streams = [] ∧
    (conn.readFramesIter input).conn.streamInputs = [] := by
  unfold clientConnection.readFramesIter
  rw [if_pos h]
  unfold clientConnection.PROTOCOL_ERROR clientConnection.cleanup
  refine ⟨rfl, rfl, ?_, rfl, rfl⟩
  intro sid hsid
  refine ⟨List.mem_cons_of_mem _ ?_, List.mem_cons_of_mem _ ?_⟩ <;>
    · rw [List.mem_flatMap]
      exact ⟨sid, hsid, by simp⟩

/-- A client session that has exhausted the benign-error budget and
still has one live stream. -/
def cOverBudget : clientConnection :=
  { cBase with numBenignErrors := 11, streams := [3], streamInputs := [3] }

/-- Witness for C1 at a concrete session: 11 benign errors with one
live stream. -/
theorem C1_benign_budget_escalation_witness :
    cOverBudget.numBenignErrors > MaxBenignErrors ∧
    (cOverBudget.readFramesIter none).terminated = true ∧
    (cOverBudget.readFramesIter none).out.head? =
      some (Output.frame (Frame.rstStream
        { version := 3, streamID := 0,
          StatusCode := RST_STREAM_PROTOCOL_ERROR })) := by
  refine ⟨by decide, ?_, ?_⟩
  · exact (C1_benign_budget_escalation _ none (by decide)).1
  · exact (C1_benign_budget_escalation _ none (by decide)).2.1

/-- C2: code evaluation at the failing input. A fresh SPDY/3 server
connection fed a matching SYN_STREAM with stream ID 1 inserts stream 1
into `streams` and launches its actor, but leaves `nextClientStreamID`
at `2 ^ 32 - 1` instead of updating it to 1 (and the server struct has
no stream-inbox table to insert into); the client-side
`handleSynStream` is a stub that, on an accepted frame, creates no
stream at all. -/
theorem C2_accept_leaves_next_id_stale :
    (connection.readFramesIter acceptSPDYVersion3Conn
      (Frame.synStream { version := 3, streamID := 1 })).conn.streams = [1] ∧
    (connection.readFramesIter acceptSPDYVersion3Conn
      (Frame.synStream { version := 3, streamID := 1 })).out =
      [Output.streamLaunch 1] ∧
    (connection.readFramesIter acceptSPDYVersion3Conn
      (Frame.synStream { version := 3, streamID := 1 })).conn.nextClientStreamID =
      2 ^ 32 - 1 ∧
    (connection.readFramesIter acceptSPDYVersion3Conn
      (Frame.synStream { version := 3, streamID := 1 })).conn.nextClientStreamID ≠ 1 ∧
    (cBase.handleSynStream { version := 3, streamID := 2 }) =
      { conn := cBase, out := [Output.doneAdd], terminated := false } := by
  decide

/-- C3 counterexample: on the client connection, a SYN_STREAM with the
odd (wrong-parity) stream ID 3 produces no RST_STREAM at all and
increments `numBenignErrors`, contradicting the claim that a
PROTOCOL_ERROR RST_STREAM is sent and the benign error count is left
unchanged. -/
theorem C3_parity_counterexample :
    (cBase.handleSynStream { version := 3, streamID := 3 }).out = [] ∧
    (cBase.handleSynStream { version := 3, streamID := 3 }).conn.numBenignErrors =
      cBase.numBenignErrors + 1 := by
  decide

/-- C3 amended: on the server connection a SYN_STREAM with even stream
ID is answered by RST_STREAM PROTOCOL_ERROR referencing that ID and no
stream is created; on the client connection a SYN_STREAM with odd
stream ID is dropped with `numBenignErrors` incremented, no frame
sent, and no stream created. -/
theorem C3_amended_parity (sconn : connection) (cconn : clientConnection)
    (sf cf : SynStreamFrame)
    (hs1 : sconn.goaway = false) (hs2 : sf.version = sconn.version)
    (hs3 : sf.streamID % 2 = 0)
    (hc1 : cconn.goaway = false) (hc2 : cf.streamID % 2 = 1) :
    sconn.synStreamCase sf =
      { conn := sconn,
        out := [Output.frame (Frame.rstStream
          { version := SPDY_VERSION, streamID := sf.streamID,
            StatusCode := RST_STREAM_PROTOCOL_ERROR })],
        terminated := false } ∧
    cconn.handleSynStream cf =
      { conn := { cconn with numBenignErrors := cconn.numBenignErrors + 1 },
        out := [], terminated := false } := by
  constructor
  · simp [connection.synStreamCase, hs1, hs2, hs3]
  · simp [clientConnection.handleSynStream, hc1, hc2]

/-- Witness for C3 amended at concrete inputs: stream ID 2 at the
server, stream ID 3 at the client. -/
theorem C3_amended_parity_witness :
    acceptSPDYVersion3Conn.goaway = false ∧
    (2 : Nat) % 2 = 0 ∧ (3 : Nat) % 2 = 1 ∧
    acceptSPDYVersion3Conn.synStreamCase { version := 3, streamID := 2 } =
      { conn := acceptSPDYVersion3Conn,
        out := [Output.frame (Frame.rstStream
          { version := SPDY_VERSION, streamID := 2,
            StatusCode := RST_STREAM_PROTOCOL_ERROR })],
        terminated := false } ∧
    cBase.handleSynStream { version := 3, streamID := 3 } =
      { conn := { cBase with numBenignErrors := cBase.numBenignErrors + 1 },
        out := [], terminated := false } := by
  refine ⟨by decide, by decide, by decide, ?_, ?_⟩
  · exact (C3_amended_parity acceptSPDYVersion3Conn cBase
      { version := 3, streamID := 2 } { version := 3, streamID := 3 }
      (by decide) (by decide) (by decide) (by decide) (by decide)).1
  · exact (C3_amended_parity acceptSPDYVersion3Conn cBase
      { version := 3, streamID := 2 } { version := 3, streamID := 3 }
      (by decide) (by decide) (by decide) (by decide) (by decide)).2

/-- A server connection whose next expected client stream ID is
`MAX_STREAM_ID` itself, so that the following in-sequence ID exceeds
the bound. -/
def sAtLimit : connection :=
  { acceptSPDYVersion3Conn with nextClientStreamID := 2 ^ 31 - 1 }

/-- An over-limit SYN_STREAM that passes the parity and sequencing
checks of `sAtLimit`. -/
def synOverLimit : SynStreamFrame := { version := 3, streamID := 2 ^ 31 + 1 }

/-- C4 counterexample: on the server connection, a SYN_STREAM whose
stream ID exceeds MAX_STREAM_ID (and passes the earlier checks) is
answered with a plain RST_STREAM PROTOCOL_ERROR reply while the loop
continues with unchanged state; there is no cleanup and no termination
of the ingress loop, contradicting the claimed connection-fatal
escalation. -/
theorem C4_server_not_fatal_counterexample :
    (sAtLimit.readFramesIter (Frame.synStream synOverLimit)).terminated = false ∧
    (sAtLimit.readFramesIter (Frame.synStream synOverLimit)).out =
      [Output.frame (Frame.rstStream
        { version := SPDY_VERSION, streamID := 2 ^ 31 + 1,
          StatusCode := RST_STREAM_PROTOCOL_ERROR })] ∧
    (sAtLimit.readFramesIter (Frame.synStream synOverLimit)).conn = sAtLimit := by
  decide

/-- A server connection positioned so that `MAX_STREAM_ID` itself is
the next expected client stream ID. -/
def sBeforeLimit : connection :=
  { acceptSPDYVersion3Conn with nextClientStreamID := MAX_STREAM_ID - 2 }

/-- C4 amended: a SYN_STREAM whose stream ID exceeds MAX_STREAM_ID
(after passing the earlier checks) is handled fatally only on the
client connection, where `handleSynStream` escalates PROTOCOL_ERROR on
that stream (RST_STREAM enqueued, tables nulled, goroutine ended); the
server connection instead replies RST_STREAM PROTOCOL_ERROR and
continues with unchanged state. A stream ID equal to MAX_STREAM_ID is
not rejected by this check: the server accepts it when it is next in
sequence. -/
theorem C4_amended_max_stream_id (cconn : clientConnection)
    (sconn : connection) (cf sf : SynStreamFrame)
    (hc1 : cconn.goaway = false) (hc2 : cf.streamID % 2 = 0)
    (hc3 : cf.streamID = uadd32 cconn.nextServerStreamID 2)
    (hc4 : cf.streamID > MAX_STREAM_ID)
    (hs1 : sconn.goaway = false) (hs2 : sf.version = sconn.version)
    (hs3 : sf.streamID % 2 = 1)
    (hs4 : sf.streamID = uadd32 sconn.nextClientStreamID 2)
    (hs5 : sf.streamID > MAX_STREAM_ID) :
    cconn.handleSynStream cf = cconn.PROTOCOL_ERROR cf.streamID ∧
    (cconn.handleSynStream cf).terminated = true ∧
    (cconn.handleSynStream cf).out.head? =
      some (Output.frame (Frame.rstStream
        { version := cconn.version, streamID := cf.streamID,
          StatusCode := RST_STREAM_PROTOCOL_ERROR })) ∧
    (cconn.handleSynStream cf).conn.streams = [] ∧
    (cconn.handleSynStream cf).conn.streamInputs = [] ∧
    sconn.synStreamCase sf =
      { conn := sconn,
        out := [Output.frame (Frame.rstStream
          { version := SPDY_VERSION, streamID := sf.streamID,
            StatusCode := RST_STREAM_PROTOCOL_ERROR })],
        terminated := false } ∧
    (sBeforeLimit.synStreamCase
      { version := 3, streamID := MAX_STREAM_ID }).conn.streams =
      [MAX_STREAM_ID] := by
  have hcs : cconn.handleSynStream cf = cconn.PROTOCOL_ERROR cf.streamID := by
    simp [clientConnection.handleSynStream, hc1, hc2, ← hc3, hc4]
  refine ⟨hcs, ?_, ?_, ?_, ?_, ?_, by decide⟩
  · rw [hcs]; rfl
  · rw [hcs]; rfl
  · rw [hcs]; rfl
  · rw [hcs]; rfl
  · simp [connection.synStreamCase, hs1, hs2, hs3, ← hs4, hs5]

/-- A client session whose next expected server stream ID is the even
over-limit value `2 ^ 31`. -/
def cOverLimitClient : clientConnection :=
  { cBase with nextServerStreamID := 2 ^ 31 - 2 }

/-- Witness for C4 amended: the client at the even over-limit ID
`2 ^ 31`, the server at the odd over-limit ID `2 ^ 31 + 1`. -/
theorem C4_amended_max_stream_id_witness :
    cOverLimitClient.goaway = false ∧
    (2 ^ 31 : Nat) % 2 = 0 ∧
    (2 ^ 31 : Nat) = uadd32 cOverLimitClient.nextServerStreamID 2 ∧
    (2 ^ 31 : Nat) > MAX_STREAM_ID ∧
    (cOverLimitClient.handleSynStream { version := 3, streamID := 2 ^ 31 }).terminated = true ∧
    sAtLimit.synStreamCase synOverLimit =
      { conn := sAtLimit,
        out := [Output.frame (Frame.rstStream
          { version := SPDY_VERSION, streamID := 2 ^ 31 + 1,
            StatusCode := RST_STREAM_PROTOCOL_ERROR })],
        terminated := false } := by
  refine ⟨by decide, by decide, by decide, by decide, ?_, ?_⟩
  · exact (C4_amended_max_stream_id cOverLimitClient sAtLimit
      { version := 3, streamID := 2 ^ 31 } synOverLimit
      (by decide) (by decide) (by decide) (by decide)
      (by decide) (by decide) (by decide) (by decide) (by decide)).2.1
  · exact (C4_amended_max_stream_id cOverLimitClient sAtLimit
      { version := 3, streamID := 2 ^ 31 } synOverLimit
      (by decide) (by decide) (by decide) (by decide)
      (by decide) (by decide) (by decide) (by decide) (by decide)).2.2.2.2.2.1

/-- C5: PING dispatch in the client ingress loop, under a version
match and an unexhausted benign-error budget. An odd (local-parity)
ping ID that is registered gets its one-shot channel signalled exactly
once with `true` and then closed, and the entry is removed from
`pings`; an odd ping ID that is not registered only increments
`numBenignErrors`; an even (peer-parity) ping ID causes the identical
PING frame to be enqueued for sending back, with no state change. -/
theorem C5_ping_dispatch (conn : clientConnection) (f : PingFrame)
    (hb : conn.numBenignErrors ≤ MaxBenignErrors)
    (hv : f.version = conn.version) :
    (f.PingID % 2 = 1 → conn.pings.contains f.PingID = true →
      conn.readFramesIter (some (Frame.ping f)) =
        { conn := { conn with pings := conn.pings.erase f.PingID },
          out := [Output.pingSignal f.PingID true,
                  Output.pingChanClose f.PingID],
          terminated := false }) ∧
    (f.PingID % 2 = 1 → conn.pings.contains f.PingID = false →
      conn.readFramesIter (some (Frame.ping f)) =
        { conn := { conn with numBenignErrors := conn.numBenignErrors + 1 },
          out := [], terminated := false }) ∧
    (f.PingID % 2 = 0 →
      conn.readFramesIter (some (Frame.ping f)) =
        { conn := conn, out := [Output.frame (Frame.ping f)],
          terminated := false }) := by
  have hnb : ¬ conn.numBenignErrors > MaxBenignErrors := Nat.not_lt.mpr hb
  refine ⟨?_, ?_, ?_⟩
  · intro h1 h2
    have h2m : f.PingID ∈ conn.pings := by simpa using h2
    simp [clientConnection.readFramesIter, hnb,
      clientConnection.validFrameVersion, Frame.frameVersion, hv, h1, h2m]
  · intro h1 h2
    have h2m : f.PingID ∉ conn.pings := by simpa using h2
    simp [clientConnection.readFramesIter, hnb,
      clientConnection.validFrameVersion, Frame.frameVersion, hv, h1, h2m]
  · intro h1
    simp [clientConnection.readFramesIter, hnb,
      clientConnection.validFrameVersion, Frame.frameVersion, hv, h1]

/-- A client session with ping ID 1 registered, as after one call of
`Ping` on a fresh session. -/
def cPingRegistered : clientConnection := { cBase with pings := [1], pingID := 3 }

/-- Witness for C5 at concrete inputs: the registered reply ID 1, the
unregistered reply ID 3, and the peer-originated ID 2. -/
theorem C5_ping_dispatch_witness :
    cPingRegistered.numBenignErrors ≤ MaxBenignErrors ∧
    cPingRegistered.readFramesIter
        (some (Frame.ping { version := 3, PingID := 1 })) =
      { conn := { cPingRegistered with pings := [] },
        out := [Output.pingSignal 1 true, Output.pingChanClose 1],
        terminated := false } ∧
    cPingRegistered.readFramesIter
        (some (Frame.ping { version := 3, PingID := 3 })) =
      { conn := { cPingRegistered with numBenignErrors := 1 },
        out := [], terminated := false } ∧
    cPingRegistered.readFramesIter
        (some (Frame.ping { version := 3, PingID := 2 })) =
      { conn := cPingRegistered,
        out := [Output.frame (Frame.ping { version := 3, PingID := 2 })],
        terminated := false } := by
  refine ⟨by decide, ?_, ?_, ?_⟩
  · have h := (C5_ping_dispatch cPingRegistered { version := 3, PingID := 1 }
      (by decide) (by decide)).1 (by decide) (by decide)
    rw [h]; decide
  · have h := (C5_ping_dispatch cPingRegistered { version := 3, PingID := 3 }
      (by decide) (by decide)).2.1 (by decide) (by decide)
    rw [h]; decide
  · exact (C5_ping_dispatch cPingRegistered { version := 3, PingID := 2 }
      (by decide) (by decide)).2.2 (by decide)

/-- A client session holding the even (server-parity) stream 2 in both
tables. -/
def cEvenStream : clientConnection :=
  { cBase with streams := [2], streamInputs := [2] }

/-- C6 counterexample: on the client connection, an RST_STREAM CANCEL
for the even (remote-parity) stream 2 leaves the streams table
untouched and increments `numBenignErrors`, contradicting the claim
that remote-parity IDs are the ones closed and that local-parity IDs
are the ones counted as benign errors. -/
theorem C6_cancel_parity_counterexample :
    (cEvenStream.handleRstStream
      { version := 3, streamID := 2,
        StatusCode := RST_STREAM_CANCEL }).conn.streams = [2] ∧
    (cEvenStream.handleRstStream
      { version := 3, streamID := 2,
        StatusCode := RST_STREAM_CANCEL }).conn.numBenignErrors =
      cEvenStream.numBenignErrors + 1 ∧
    (cEvenStream.handleRstStream
      { version := 3, streamID := 2,
        StatusCode := RST_STREAM_CANCEL }).out = [] := by
  decide

/-- C6 amended: for RST_STREAM CANCEL on the client connection, an odd
(local, client-parity) stream ID is closed: the stream is stopped, its
state closed, its input channel closed, and its key removed from the
`streams` table (the `streamInputs` key remains); an even
(remote-parity) stream ID only increments `numBenignErrors` and leaves
the tables unmodified. -/
theorem C6_amended_cancel (conn : clientConnection) (f : RstStreamFrame)
    (hst : f.StatusCode = RST_STREAM_CANCEL) :
    (f.streamID % 2 = 1 →
      conn.handleRstStream f =
        { conn := { conn with streams := conn.streams.erase f.streamID },
          out := [Output.streamStop f.streamID,
                  Output.streamStateClose f.streamID,
                  Output.inputChanClose f.streamID],
          terminated := false } ∧
      (conn.handleRstStream f).conn.streamInputs = conn.streamInputs) ∧
    (f.streamID % 2 = 0 →
      conn.handleRstStream f =
        { conn := { conn with numBenignErrors := conn.numBenignErrors + 1 },
          out := [], terminated := false }) := by
  constructor
  · intro h1
    have hz : f.streamID ≠ 0 := by omega
    have hmain : conn.handleRstStream f =
        { conn := { conn with streams := conn.streams.erase f.streamID },
          out := [Output.streamStop f.streamID,
                  Output.streamStateClose f.streamID,
                  Output.inputChanClose f.streamID],
          terminated := false } := by
      simp [clientConnection.handleRstStream, hst, RST_STREAM_CANCEL,
        RST_STREAM_INVALID_STREAM, RST_STREAM_REFUSED_STREAM, h1,
        clientConnection.closeStream, hz]
    exact ⟨hmain, by rw [hmain]⟩
  · intro h1
    simp [clientConnection.handleRstStream, hst, RST_STREAM_CANCEL,
      RST_STREAM_INVALID_STREAM, RST_STREAM_REFUSED_STREAM, h1]

/-- A client session holding the odd (client-parity) stream 3 in both
tables. -/
def cOddStream : clientConnection :=
  { cBase with streams := [3], streamInputs := [3] }

/-- Witness for C6 amended at concrete inputs: CANCEL for the odd
stream 3 closes it; CANCEL for the even stream 2 is a benign error. -/
theorem C6_amended_cancel_witness :
    (3 : Nat) % 2 = 1 ∧ (2 : Nat) % 2 = 0 ∧
    cOddStream.handleRstStream
        { version := 3, streamID := 3, StatusCode := RST_STREAM_CANCEL } =
      { conn := { cOddStream with streams := [] },
        out := [Output.streamStop 3, Output.streamStateClose 3,
                Output.inputChanClose 3],
        terminated := false } ∧
    cEvenStream.handleRstStream
        { version := 3, streamID := 2, StatusCode := RST_STREAM_CANCEL } =
      { conn := { cEvenStream with numBenignErrors := 1 },
        out := [], terminated := false } := by
  refine ⟨by decide, by decide, ?_, ?_⟩
  · have h := ((C6_amended_cancel cOddStream
      { version := 3, streamID := 3, StatusCode := RST_STREAM_CANCEL }
      (by decide)).1 (by decide)).1
    rw [h]; decide
  · have h := (C6_amended_cancel cEvenStream
      { version := 3, streamID := 2, StatusCode := RST_STREAM_CANCEL }
      (by decide)).2 (by decide)
    rw [h]; decide

/-- C7: code evaluation at the failing input. Closing stream 3 on a
client session holding it in both tables removes the key from
`streams` but leaves it in `streamInputs`, so the two key sets differ
at the observable boundary after the operation, violating invariant
I1; the claim that closing a stream removes its entry from both tables
fails. -/
theorem C7_close_stream_table_mismatch :
    (cOddStream.closeStream 3).1.streams = [] ∧
    (cOddStream.closeStream 3).1.streamInputs = [3] ∧
    (cOddStream.closeStream 3).1.streams ≠
      (cOddStream.closeStream 3).1.streamInputs := by
  decide

/-- C8: WINDOW_UPDATE handling after the parity and stream checks
pass. A delta window size of 0 or above MAX_DELTA_WINDOW_SIZE makes
the handler escalate PROTOCOL_ERROR on that stream -- the fatal path,
on which the frame is never delivered to any stream input channel; a
delta between 1 and MAX_DELTA_WINDOW_SIZE makes the handler deliver
the frame to the input channel of that stream with no other effect. -/
theorem C8_window_update_delta (conn : clientConnection)
    (f : WindowUpdateFrame) (hodd : f.streamID % 2 = 1)
    (hsid : f.streamID = uadd32 conn.nextClientStreamID 2 ∨
            f.streamID = 1 ∨ conn.nextClientStreamID = 0) :
    ((f.DeltaWindowSize = 0 ∨ f.DeltaWindowSize > MAX_DELTA_WINDOW_SIZE) →
      conn.handleWindowUpdateFrame f = conn.PROTOCOL_ERROR f.streamID ∧
      (conn.handleWindowUpdateFrame f).terminated = true ∧
      ∀ g, Output.streamInput f.streamID g ∉
        (conn.handleWindowUpdateFrame f).out) ∧
    (1 ≤ f.DeltaWindowSize → f.DeltaWindowSize ≤ MAX_DELTA_WINDOW_SIZE →
      conn.handleWindowUpdateFrame f =
        { conn := conn,
          out := [Output.streamInput f.streamID (Frame.windowUpdate f)],
          terminated := false }) := by
  have hpass : ¬ (f.streamID ≠ uadd32 conn.nextClientStreamID 2 ∧
      f.streamID ≠ 1 ∧ conn.nextClientStreamID ≠ 0) := by
    rcases hsid with h | h | h <;> simp [h]
  constructor
  · intro hd
    have hmain : conn.handleWindowUpdateFrame f =
        conn.PROTOCOL_ERROR f.streamID := by
      rcases hd with h | h <;>
        simp [clientConnection.handleWindowUpdateFrame, hodd, hpass, h]
    refine ⟨hmain, by rw [hmain]; rfl, ?_⟩
    intro g
    rw [hmain]
    simp [clientConnection.PROTOCOL_ERROR, clientConnection.cleanup,
      List.mem_flatMap]
  · intro hd1 hd2
    have hA : ¬ f.DeltaWindowSize > MAX_DELTA_WINDOW_SIZE := by omega
    have hB : ¬ f.DeltaWindowSize < 1 := by omega
    have hB0 : ¬ f.DeltaWindowSize = 0 := by omega
    simp [clientConnection.handleWindowUpdateFrame, hodd, hpass, hA, hB, hB0]

/-- Witness for C8 at concrete inputs on a fresh client session:
delta 0 and delta MAX_DELTA_WINDOW_SIZE + 1 are fatal, delta 1 and
delta MAX_DELTA_WINDOW_SIZE are delivered. -/
theorem C8_window_update_delta_witness :
    (1 : Nat) % 2 = 1 ∧ cBase.nextClientStreamID = 0 ∧
    (cBase.handleWindowUpdateFrame
      { version := 3, streamID := 1, DeltaWindowSize := 0 }).terminated = true ∧
    (cBase.handleWindowUpdateFrame
      { version := 3, streamID := 1,
        DeltaWindowSize := MAX_DELTA_WINDOW_SIZE + 1 }).terminated = true ∧
    cBase.handleWindowUpdateFrame
        { version := 3, streamID := 1, DeltaWindowSize := 1 } =
      { conn := cBase,
        out := [Output.streamInput 1 (Frame.windowUpdate
          { version := 3, streamID := 1, DeltaWindowSize := 1 })],
        terminated := false } ∧
    (cBase.handleWindowUpdateFrame
      { version := 3, streamID := 1,
        DeltaWindowSize := MAX_DELTA_WINDOW_SIZE }).terminated = false := by
  refine ⟨by decide, by decide, ?_, ?_, ?_, ?_⟩
  · exact ((C8_window_update_delta cBase
      { version := 3, streamID := 1, DeltaWindowSize := 0 }
      (by decide) (Or.inr (Or.inl (by decide)))).1 (Or.inl (by decide))).2.1
  · exact ((C8_window_update_delta cBase
      { version := 3, streamID := 1, DeltaWindowSize := MAX_DELTA_WINDOW_SIZE + 1 }
      (by decide) (Or.inr (Or.inl (by decide)))).1 (Or.inr (by decide))).2.1
  · exact (C8_window_update_delta cBase
      { version := 3, streamID := 1, DeltaWindowSize := 1 }
      (by decide) (Or.inr (Or.inl (by decide)))).2 (by decide) (by decide)
  · have h := (C8_window_update_delta cBase
      { version := 3, streamID := 1, DeltaWindowSize := MAX_DELTA_WINDOW_SIZE }
      (by decide) (Or.inr (Or.inl (by decide)))).2 (by decide) (by decide)
    rw [h]

/-- C9 counterexample: a DATA frame for stream 3, which is absent from
the streams table of a fresh client session, is routed straight to the
(nonexistent) stream input channel with `numBenignErrors` unchanged
and no RST_STREAM INVALID_STREAM reply, contradicting the claim. -/
theorem C9_data_counterexample :
    cBase.streams.contains 3 = false ∧
    (cBase.handleDataFrame { streamID := 3, Flags := 0 }).out =
      [Output.streamInput 3 (Frame.data { streamID := 3, Flags := 0 })] ∧
    (cBase.handleDataFrame { streamID := 3, Flags := 0 }).conn.numBenignErrors =
      cBase.numBenignErrors := by
  decide

/-- C9 amended: the client DATA handler never sends any frame (so in
particular no RST_STREAM INVALID_STREAM) and never consults the
streams table for presence. A frame with even stream ID, or one
failing the expected-ID check (ID differing from
`nextClientStreamID + 2` and from 1 while `nextClientStreamID` is
nonzero), is dropped with `numBenignErrors` incremented; otherwise the
frame is routed to the stream input channel of its ID -- whether or
not that stream exists -- followed by a remote-close of the stream
state when FIN is set. -/
theorem C9_amended_data (conn : clientConnection) (f : DataFrame) :
    (∀ g, Output.frame g ∉ (conn.handleDataFrame f).out) ∧
    (f.streamID % 2 = 0 →
      conn.handleDataFrame f =
        { conn := { conn with numBenignErrors := conn.numBenignErrors + 1 },
          out := [], terminated := false }) ∧
    (f.streamID % 2 = 1 → f.streamID ≠ uadd32 conn.nextClientStreamID 2 →
      f.streamID ≠ 1 → conn.nextClientStreamID ≠ 0 →
      conn.handleDataFrame f =
        { conn := { conn with numBenignErrors := conn.numBenignErrors + 1 },
          out := [], terminated := false }) ∧
    (f.streamID % 2 = 1 →
      (f.streamID = uadd32 conn.nextClientStreamID 2 ∨ f.streamID = 1 ∨
        conn.nextClientStreamID = 0) →
      (conn.handleDataFrame f).conn = conn ∧
      (conn.handleDataFrame f).out =
        Output.streamInput f.streamID (Frame.data f) ::
          (if f.Flags &&& FLAG_FIN ≠ 0 then
            [Output.streamCloseThere f.streamID]
          else [])) := by
  refine ⟨?_, ?_, ?_, ?_⟩
  · intro g
    by_cases h1 : f.streamID % 2 = 0
    · simp [clientConnection.handleDataFrame, h1]
    · by_cases h2 : f.streamID ≠ uadd32 conn.nextClientStreamID 2 ∧
          f.streamID ≠ 1 ∧ conn.nextClientStreamID ≠ 0
      · simp [clientConnection.handleDataFrame, h1, h2]
      · by_cases h3 : f.Flags &&& FLAG_FIN ≠ 0 <;>
          simp [clientConnection.handleDataFrame, h1, h2, h3]
  · intro h1
    simp [clientConnection.handleDataFrame, h1]
  · intro h1 h2 h3 h4
    simp [clientConnection.handleDataFrame, h1, h2, h3, h4]
  · intro h1 hsid
    have hpass : ¬ (f.streamID ≠ uadd32 conn.nextClientStreamID 2 ∧
        f.streamID ≠ 1 ∧ conn.nextClientStreamID ≠ 0) := by
      rcases hsid with h | h | h <;> simp [h]
    constructor <;> simp [clientConnection.handleDataFrame, h1, hpass]

/-- Witness for C9 amended at concrete inputs on a fresh client
session: even ID 2 is a benign error; odd ID 3 is delivered. -/
theorem C9_amended_data_witness :
    (2 : Nat) % 2 = 0 ∧ (3 : Nat) % 2 = 1 ∧
    cBase.handleDataFrame { streamID := 2, Flags := 0 } =
      { conn := { cBase with numBenignErrors := 1 },
        out := [], terminated := false } ∧
    (cBase.handleDataFrame { streamID := 3, Flags := 0 }).out =
      [Output.streamInput 3 (Frame.data { streamID := 3, Flags := 0 })] := by
  refine ⟨by decide, by decide, ?_, ?_⟩
  · have h := (C9_amended_data cBase { streamID := 2, Flags := 0 }).2.1
      (by decide)
    rw [h]; decide
  · have h := ((C9_amended_data cBase { streamID := 3, Flags := 0 }).2.2.2
      (by decide) (Or.inr (Or.inr (by decide)))).2
    rw [h]; decide

/-- C10: `newConn` assigns `1 - 2` to the uint32 field
`nextClientStreamID`, which wraps to `2 ^ 32 - 1`; the acceptance
check `sid = nextClientStreamID + 2` then wraps to 1, so a freshly
constructed SPDY/3 server connection creates a stream for a version-3
SYN_STREAM exactly when its stream ID is 1, with no special case for
the first stream. -/
theorem C10_first_stream_wrap (sid : Nat) :
    newConn.nextClientStreamID = 2 ^ 32 - 1 ∧
    uadd32 newConn.nextClientStreamID 2 = 1 ∧
    ((connection.readFramesIter acceptSPDYVersion3Conn
      (Frame.synStream { version := 3, streamID := sid })).conn.streams ≠ []
      ↔ sid = 1) := by
  refine ⟨by decide, by decide, ?_⟩
  by_cases h : sid = 1
  · subst h; decide
  · have hnsid : uadd32 acceptSPDYVersion3Conn.nextClientStreamID 2 = 1 := by
      decide
    simp only [connection.readFramesIter, connection.synStreamCase, hnsid]
    by_cases hp : sid % 2 = 0
    · simp [acceptSPDYVersion3Conn, newConn, hp, h]
    · simp [acceptSPDYVersion3Conn, newConn, hp, h]

/-- Witness for C10 at the concrete stream IDs 1 (accepted) and 3
(not accepted first). -/
theorem C10_first_stream_wrap_witness :
    ((connection.readFramesIter acceptSPDYVersion3Conn
      (Frame.synStream { version := 3, streamID := 1 })).conn.streams ≠ []) ∧
    ¬ ((connection.readFramesIter acceptSPDYVersion3Conn
      (Frame.synStream { version := 3, streamID := 3 })).conn.streams ≠ []) := by
  constructor
  · exact (C10_first_stream_wrap 1).2.2.mpr rfl
  · intro hne
    exact absurd ((C10_first_stream_wrap 3).2.2.mp hne) (by decide)

end Spdy
